import Mathlib

/-!
Verification of the ARNetworkAL / ARNetwork transport core of the
go-parrot drone controller.

The Go sources are shallowly embedded: machine integers become `Nat`
(with explicit `% 256` where the `uint8` sequence counter wraps),
byte slices become `List Nat`, fallible calls become `Except`/`Option`,
and every external effect (socket reads and writes, channel receives,
timers) is supplied by an explicit environment value, so each function
of the source becomes a pure, executable Lean function of its inputs
and its environment.
-/

namespace Arnetworkal

/-- Frame types of the ARNetworkAL wire protocol.  In the Go source
`FrameType` is a `uint8`-backed type, so it is embedded as `Nat`; the
zero value of a `Frame` therefore has type `0`, which is not one of
the four named constants. -/
abbrev FrameType := Nat

/-- `FrameTypeData` (1): plain data, no acknowledgment required. -/
def FrameTypeData : FrameType := 1

/-- `FrameTypeDataLowLatency` (2). -/
def FrameTypeDataLowLatency : FrameType := 2

/-- `FrameTypeDataWithAck` (3): data requiring acknowledgment. -/
def FrameTypeDataWithAck : FrameType := 3

/-- `FrameTypeAck` (4): an acknowledgment frame. -/
def FrameTypeAck : FrameType := 4

/-- The `arnetworkal.Frame` struct: channel ID, frame type, sequence
number and payload.  All integer fields are `uint8` in Go. -/
structure Frame where
  id : Nat
  type : FrameType
  seq : Nat
  data : List Nat
deriving DecidableEq, Repr

/-- The Go zero value `arnetworkal.Frame{}`: all fields zero, nil payload. -/
def zeroFrame : Frame := ⟨0, 0, 0, []⟩

end Arnetworkal

namespace Arnetwork

/-- The `arnetwork.Frame` struct as used by the C2D buffer: only its
`Data` field is touched by `writeFrame`. -/
structure Frame where
  data : List Nat
deriving DecidableEq, Repr

/-- The `C2DBufferConfig` fields read by `c2dBuffer`:
channel `ID`, `FrameType`, queue `Size`, `IsOverwriting`,
`MaxRetries` (a signed integer, `-1` meaning unlimited) and
`AckTimeout` (an opaque duration). -/
structure C2DBufferConfig where
  ID : Nat
  FrameType : Arnetworkal.FrameType
  Size : Nat
  IsOverwriting : Bool
  MaxRetries : Int
  AckTimeout : Nat
deriving DecidableEq, Repr

/-- Outcome of one `select` on the ack channel versus `time.After`:
either an ack frame was received from `ackCh` before the timer fired,
or the timer fired first. -/
inductive AckWait where
  | ackFrame (ack : Frame)
  | timedOut
deriving DecidableEq, Repr

/-- Environment of one iteration of the `writeFrame` retry loop: the
result of `conn.Send` (`none` = success) and the result of the ack
wait (consulted only for `DataWithAck` frames). -/
structure AttemptEnv where
  sendErr : Option String
  ackWait : AckWait
deriving DecidableEq, Repr

/-- Observable state threaded through the buffer writer: the `uint8`
sequence counter `c.seq`, the frames handed to `conn.Send` in order,
and the log lines emitted. -/
structure BufState where
  seq : Nat
  sent : List Arnetworkal.Frame
  logs : List String
deriving DecidableEq, Repr

/-- How one call to `writeFrame` ended: `acked` models the early
`return` on a matching ack, `exhausted` models the `for` loop
condition becoming false, and `diverged` reports that the modelling
fuel ran out (the Go loop would still be running). -/
inductive WriteResult where
  | acked
  | exhausted
  | diverged
deriving DecidableEq, Repr

/-- The Go loop guard `attempts <= c.MaxRetries || c.MaxRetries == -1`. -/
def loopCond (maxRetries : Int) (attempts : Nat) : Bool :=
  (attempts : Int) ≤ maxRetries || maxRetries == -1

/-- The bytes of `[]byte(fmt.Sprintf("%d", seq))`: the ASCII decimal
representation of the sequence number, which `writeFrame` compares
against the ack frame payload via `bytes.Equal`. -/
def seqAckBytes (n : Nat) : List Nat :=
  (Nat.toDigits 10 n).map Char.toNat

/-- One queued item's retry loop in `c2dBuffer.writeFrame`.  Each
iteration builds `netFrame` from the config and the current sequence
counter, increments the counter (mod 256, it is a `uint8`), hands the
frame to `conn.Send` (logging any send error), and, for
`DataWithAck` frames only, waits on the ack channel against
`time.After(c.AckTimeout)`: a received ack terminates the call iff its
payload equals the decimal bytes of the frame's sequence number;
otherwise the loop moves to the next attempt.  The `fuel` argument
bounds how many iterations the model unfolds; running out of fuel
yields `diverged` and models the Go loop not having terminated. -/
def writeFrameLoop (cfg : C2DBufferConfig) (frame : Frame)
    (env : Nat → AttemptEnv) (attempts : Nat) (st : BufState) :
    Nat → WriteResult × BufState
  | 0 => (.diverged, st)
  | fuel + 1 =>
    if loopCond cfg.MaxRetries attempts then
      let netFrame : Arnetworkal.Frame :=
        ⟨cfg.ID, cfg.FrameType, st.seq, frame.data⟩
      let st1 : BufState :=
        ⟨(st.seq + 1) % 256, st.sent ++ [netFrame],
          match (env attempts).sendErr with
          | some e => st.logs ++ ["error sending frame: " ++ e]
          | none => st.logs⟩
      if cfg.FrameType = Arnetworkal.FrameTypeDataWithAck then
        match (env attempts).ackWait with
        | .ackFrame ack =>
          if ack.data = seqAckBytes netFrame.seq then (.acked, st1)
          else writeFrameLoop cfg frame env (attempts + 1) st1 fuel
        | .timedOut => writeFrameLoop cfg frame env (attempts + 1) st1 fuel
      else writeFrameLoop cfg frame env (attempts + 1) st1 fuel
    else (.exhausted, st)

/-- `c2dBuffer.writeFrame`: the retry loop started at `attempts = 0`. -/
def writeFrame (cfg : C2DBufferConfig) (frame : Frame)
    (env : Nat → AttemptEnv) (fuel : Nat) (st : BufState) :
    WriteResult × BufState :=
  writeFrameLoop cfg frame env 0 st fuel

/-- `c2dBuffer.writeFrames`: drain the queued items in order, calling
`writeFrame` on each.  If a call diverges (never returns in Go), later
queued items are never processed. -/
def writeFrames (cfg : C2DBufferConfig) (fuel : Nat) :
    List (Frame × (Nat → AttemptEnv)) → BufState →
    List WriteResult × BufState
  | [], st => ([], st)
  | (f, env) :: rest, st =>
    match writeFrame cfg f env fuel st with
    | (.diverged, st1) => ([.diverged], st1)
    | (r, st1) =>
      let out := writeFrames cfg fuel rest st1
      (r :: out.1, out.2)

end Arnetwork

namespace Wifi

/-- One observation made by the body of `connection.receivePackets`:
either the stop channel is seen closed at the head of the loop, or
`SetReadDeadline` fails, or `ReadFromUDP` returns a timeout, another
read error, or a datagram. -/
inductive RecvEvent where
  | stop
  | deadlineErr (msg : String)
  | readTimeout
  | readErr (msg : String)
  | datagram (data : List Nat)
deriving DecidableEq, Repr

/-- What the receive loop has delivered so far: frames handed to
`rcvFrameCh`, errors handed to `rcvErrCh`, and whether the loop has
returned (`rcvDoneCh` closed). -/
structure RecvOutput where
  frames : List Arnetworkal.Frame
  errors : List String
  stopped : Bool
deriving DecidableEq, Repr

/-- Prepend one error delivered to `rcvErrCh`. -/
def pushError (e : String) (out : RecvOutput) : RecvOutput :=
  ⟨out.frames, e :: out.errors, out.stopped⟩

/-- Prepend frames delivered to `rcvFrameCh`. -/
def pushFrames (fs : List Arnetworkal.Frame) (out : RecvOutput) : RecvOutput :=
  ⟨fs ++ out.frames, out.errors, out.stopped⟩

/-- `connection.receivePackets` over a finite trace of loop
observations.  A read timeout is deliberately not an error and the
loop just reads again; a deadline error, read error or decode error is
delivered to the error channel and the loop continues; the loop
returns only when the stop channel is observed closed.  An exhausted
trace leaves the loop still running (`stopped = false`). -/
def receivePackets
    (decodeData : List Nat → Except String (List Arnetworkal.Frame)) :
    List RecvEvent → RecvOutput
  | [] => ⟨[], [], false⟩
  | .stop :: _ => ⟨[], [], true⟩
  | .deadlineErr m :: rest =>
    pushError ("error setting read deadline: " ++ m)
      (receivePackets decodeData rest)
  | .readTimeout :: rest => receivePackets decodeData rest
  | .readErr m :: rest =>
    pushError ("error receiving data from inbound connection: " ++ m)
      (receivePackets decodeData rest)
  | .datagram d :: rest =>
    match decodeData d with
    | .error m =>
      pushError ("error decoding inbound data: " ++ m)
        (receivePackets decodeData rest)
    | .ok fs => pushFrames fs (receivePackets decodeData rest)

/-- The `connectionNegotiationResponse` struct decoded from the
device's null-terminated JSON reply. -/
structure ConnectionNegotiationResponse where
  status : Int
  c2dPort : Nat
deriving DecidableEq, Repr

/-- UDP sockets opened by `NewConnection`, in order: the outbound
(c2d) socket from `net.DialUDP` and the inbound (d2c) socket from
`net.ListenUDP`. -/
inductive SocketOp where
  | c2dDialed (port : Nat)
  | d2cListening (port : Nat)
deriving DecidableEq, Repr

/-- Results of the external calls performed by `NewConnection`, in
program order.  Each field is the outcome the corresponding call would
return; `Unit` successes model calls whose value is not inspected. -/
structure NegotiationEnv where
  freePort : Except String Nat
  resolveNegAddr : Except String Unit
  dialNeg : Except String Unit
  marshalReq : Except String Unit
  writeReq : Except String Unit
  readResp : Except String Unit
  unmarshalResp : Except String ConnectionNegotiationResponse
  resolveC2D : Except String Unit
  dialC2D : Except String Unit
  resolveD2C : Except String Unit
  listenD2C : Except String Unit
deriving Repr

/-- `wifi.NewConnection`: select a free d2c port, negotiate over TCP
(resolve, dial, marshal a request, write it, read the null-terminated
response, unmarshal it), refuse on non-zero status, then open the
outbound UDP socket (`DialUDP`) and the inbound UDP socket
(`ListenUDP`).  Returns the overall outcome together with the list of
UDP sockets that were opened along the way. -/
def NewConnection (env : NegotiationEnv) :
    Except String Unit × List SocketOp :=
  match env.freePort with
  | .error e =>
    (.error ("error selecting available client-side port: " ++ e), [])
  | .ok d2cPort =>
    match env.resolveNegAddr with
    | .error e =>
      (.error ("error resolving address for connection negotiation: " ++ e),
        [])
    | .ok _ =>
      match env.dialNeg with
      | .error e => (.error ("error negotiating connection: " ++ e), [])
      | .ok _ =>
        match env.marshalReq with
        | .error e =>
          (.error ("error marshaling connection negotiation request: " ++ e),
            [])
        | .ok _ =>
          match env.writeReq with
          | .error e =>
            (.error ("error sending connection negotiation request: " ++ e),
              [])
          | .ok _ =>
            match env.readResp with
            | .error e =>
              (.error
                ("error receiving connection negotiation response: " ++ e),
                [])
            | .ok _ =>
              match env.unmarshalResp with
              | .error e =>
                (.error
                  ("error unmarshaling connection negotiation response: "
                    ++ e), [])
              | .ok negRes =>
                if negRes.status ≠ 0 then
                  (.error
                    "connection negotiation failed; connection refused by device",
                    [])
                else
                  match env.resolveC2D with
                  | .error e =>
                    (.error
                      ("error resolving address for outbound connection: "
                        ++ e), [])
                  | .ok _ =>
                    match env.dialC2D with
                    | .error e =>
                      (.error
                        ("error establishing outbound connection: " ++ e), [])
                    | .ok _ =>
                      match env.resolveD2C with
                      | .error e =>
                        (.error
                          ("error resolving address for inbound connection: "
                            ++ e), [.c2dDialed negRes.c2dPort])
                      | .ok _ =>
                        match env.listenD2C with
                        | .error e =>
                          (.error
                            ("error establishing inbound connection: " ++ e),
                            [.c2dDialed negRes.c2dPort])
                        | .ok _ =>
                          (.ok (),
                            [.c2dDialed negRes.c2dPort,
                              .d2cListening d2cPort])

/-- `maxUDPDataBytes`: the practical maximum number of data bytes in a
UDP packet; in the source it sizes the receive buffer of
`receivePackets`. -/
def maxUDPDataBytes : Nat := 65507

/-- `connection.Send`: encode the frame and write it to the outbound
UDP socket, wrapping a write error; no other checks are performed.
The socket write is an external effect supplied by `write`. -/
def Send (encodeFrame : Arnetworkal.Frame → List Nat)
    (write : List Nat → Except String Nat) (frame : Arnetworkal.Frame) :
    Option String :=
  match write (encodeFrame frame) with
  | .error e => some ("error writing frame to outbound connection: " ++ e)
  | .ok _ => none

/-- The four bytes of a 32-bit little-endian integer. -/
def uint32LE (n : Nat) : List Nat :=
  [n % 256, n / 256 % 256, n / 65536 % 256, n / 16777216 % 256]

/-- Read back a 32-bit little-endian integer from its four bytes. -/
def readUint32LE (b0 b1 b2 b3 : Nat) : Nat :=
  b0 + 256 * b1 + 65536 * b2 + 16777216 * b3

/-- Modelled from the spec: `defaultEncodeFrame` is referenced by
`NewConnection` but its body is not among the provided sources.  Per
the spec's wire format, a frame is encoded as the 7-byte header
`[type:1B][channelID:1B][sequence:1B][totalLength:4B little-endian]`
followed by the payload, where `totalLength` includes the header. -/
def defaultEncodeFrame (f : Arnetworkal.Frame) : List Nat :=
  f.type :: f.id :: f.seq :: uint32LE (7 + f.data.length) ++ f.data

/-- Modelled from the spec: `defaultDecodeData` is referenced by
`NewConnection` but its body is not among the provided sources.  Per
the spec, a datagram holds one or more frames concatenated
back-to-back; decoding stops cleanly at the buffer boundary and fails
with a malformed-frame error when fewer than 7 header bytes remain or
a declared total length is shorter than the header or would read past
the available bytes.  Field bytes are copied as read. -/
def defaultDecodeData : List Nat → Except String (List Arnetworkal.Frame)
  | [] => .ok []
  | t :: cid :: seq :: l0 :: l1 :: l2 :: l3 :: rest =>
    let total := readUint32LE l0 l1 l2 l3
    if total < 7 ∨ 7 + rest.length < total then
      .error "malformed frame"
    else
      match defaultDecodeData (rest.drop (total - 7)) with
      | .error e => .error e
      | .ok fs => .ok (⟨cid, t, seq, rest.take (total - 7)⟩ :: fs)
  | _ => .error "malformed frame"
termination_by l => l.length
decreasing_by
  simp only [List.length_drop, List.length_cons]
  omega

/-- Which of `connection.Receive`'s three `select` cases fires: a
frame from `rcvFrameCh`, an error from `rcvErrCh`, or `rcvDoneCh`
observed closed.  After `Close` has returned, the receive loop has
exited and nothing sends on the first two channels, so only the
`doneClosed` case can fire. -/
inductive ReceiveSelect where
  | frameReady (f : Arnetworkal.Frame)
  | errReady (e : String)
  | doneClosed
deriving DecidableEq, Repr

/-- `connection.Receive`: returns `(frame, true, nil)` for a received
frame, `(Frame{}, false, err)` for a delivered error, and
`(Frame{}, false, nil)` when the done channel is closed. -/
def Receive : ReceiveSelect → Arnetworkal.Frame × Bool × Option String
  | .frameReady f => (f, true, none)
  | .errReady e => (Arnetworkal.zeroFrame, false, some e)
  | .doneClosed => (Arnetworkal.zeroFrame, false, none)

end Wifi

namespace Common

/-- The `commonState` feature struct: every field is a nullable
pointer in Go (`nil` until the device first reports a value), so each
is embedded as an `Option`.  `rssi` is an `int16`, the rest are
`uint8`/`uint16` counters. -/
structure CommonState where
  rssi : Option Int
  massStorageID : Option Nat
  photoCount : Option Nat
  videoCount : Option Nat
  pudCount : Option Nat
  crashLogCount : Option Nat
  rawPhotoCount : Option Nat
  currentRunMassStorageID : Option Nat
  currentRunPhotoCount : Option Nat
  currentRunVideoCount : Option Nat
  currentRunRawPhotoCount : Option Nat
  batteryPercent : Option Nat
deriving DecidableEq, Repr

/-- The zero value of `commonState`: every pointer field is `nil`. -/
def initialCommonState : CommonState :=
  ⟨none, none, none, none, none, none, none, none, none, none, none, none⟩

/-- One invocation of a registered `commonState` D2C handler, with the
decoded arguments the handler reads.  Handlers whose bodies only log
carry no arguments here. -/
inductive CommonEvent where
  | allStatesChanged
  | batteryStateChanged (percent : Nat)
  | massStorageStateListChanged
  | massStorageInfoStateListChanged
  | currentDateChanged
  | currentTimeChanged
  | wifiSignalChanged (rssi : Int)
  | sensorsStatesListChanged
  | deprecatedMassStorageContentChanged
  | massStorageContent
      (id nbPhotos nbVideos nbPuds nbCrashLogs nbRawPhotos : Nat)
  | massStorageContentForCurrentRun (id nbPhotos nbVideos nbRawPhotos : Nat)
  | videoRecordingTimestamp
deriving DecidableEq, Repr

/-- Apply one handler invocation to the state, mirroring the handler
bodies: `batteryStateChanged` stores `batteryPercent`,
`wifiSignalChanged` stores `rssi`, `massStorageContent` stores the six
mass-storage counters, `massStorageContentForCurrentRun` stores the
four current-run counters; every other handler only logs and stores
nothing. -/
def applyCommonEvent (c : CommonState) : CommonEvent → CommonState
  | .batteryStateChanged p => { c with batteryPercent := some p }
  | .wifiSignalChanged r => { c with rssi := some r }
  | .massStorageContent i ph vi pu cr raw =>
    { c with
      massStorageID := some i
      photoCount := some ph
      videoCount := some vi
      pudCount := some pu
      crashLogCount := some cr
      rawPhotoCount := some raw }
  | .massStorageContentForCurrentRun i ph vi raw =>
    { c with
      currentRunMassStorageID := some i
      currentRunPhotoCount := some ph
      currentRunVideoCount := some vi
      currentRunRawPhotoCount := some raw }
  | _ => c

/-- A finite history of handler invocations applied in order. -/
def runCommon (c : CommonState) (evs : List CommonEvent) : CommonState :=
  evs.foldl applyCommonEvent c

/-- Does the event store the `batteryPercent` field? -/
def storesBattery : CommonEvent → Bool
  | .batteryStateChanged _ => true
  | _ => false

/-- Does the event store the `rssi` field? -/
def storesRSSI : CommonEvent → Bool
  | .wifiSignalChanged _ => true
  | _ => false

/-- Does the event store the six mass-storage content fields? -/
def storesMassContent : CommonEvent → Bool
  | .massStorageContent _ _ _ _ _ _ => true
  | _ => false

/-- Does the event store the four current-run content fields? -/
def storesCurrentRun : CommonEvent → Bool
  | .massStorageContentForCurrentRun _ _ _ _ => true
  | _ => false

/-- `commonState.RSSI`. -/
def RSSI (c : CommonState) : Int × Bool :=
  match c.rssi with
  | none => (0, false)
  | some v => (v, true)

/-- `commonState.MassStorageID`. -/
def MassStorageID (c : CommonState) : Nat × Bool :=
  match c.massStorageID with
  | none => (0, false)
  | some v => (v, true)

/-- `commonState.PhotoCount`. -/
def PhotoCount (c : CommonState) : Nat × Bool :=
  match c.photoCount with
  | none => (0, false)
  | some v => (v, true)

/-- `commonState.VideoCount`. -/
def VideoCount (c : CommonState) : Nat × Bool :=
  match c.videoCount with
  | none => (0, false)
  | some v => (v, true)

/-- `commonState.PudCount`. -/
def PudCount (c : CommonState) : Nat × Bool :=
  match c.pudCount with
  | none => (0, false)
  | some v => (v, true)

/-- `commonState.CrashLogCount`. -/
def CrashLogCount (c : CommonState) : Nat × Bool :=
  match c.crashLogCount with
  | none => (0, false)
  | some v => (v, true)

/-- `commonState.RawPhotoCount`. -/
def RawPhotoCount (c : CommonState) : Nat × Bool :=
  match c.rawPhotoCount with
  | none => (0, false)
  | some v => (v, true)

/-- `commonState.CurrentRunMassStorageID`. -/
def CurrentRunMassStorageID (c : CommonState) : Nat × Bool :=
  match c.currentRunMassStorageID with
  | none => (0, false)
  | some v => (v, true)

/-- `commonState.CurrentRunPhotoCount`. -/
def CurrentRunPhotoCount (c : CommonState) : Nat × Bool :=
  match c.currentRunPhotoCount with
  | none => (0, false)
  | some v => (v, true)

/-- `commonState.CurrentRunVideoCount`. -/
def CurrentRunVideoCount (c : CommonState) : Nat × Bool :=
  match c.currentRunVideoCount with
  | none => (0, false)
  | some v => (v, true)

/-- `commonState.CurrentRunRawPhotoCount`. -/
def CurrentRunRawPhotoCount (c : CommonState) : Nat × Bool :=
  match c.currentRunRawPhotoCount with
  | none => (0, false)
  | some v => (v, true)

/-- `commonState.BatteryPercent`. -/
def BatteryPercent (c : CommonState) : Nat × Bool :=
  match c.batteryPercent with
  | none => (0, false)
  | some v => (v, true)

end Common

/-! ## Theorems -/

namespace Arnetwork

/-- The sent-frame trace only grows, and a call that ends `acked`
performed at least one send. -/
theorem writeFrameLoop_sent_mono (cfg : C2DBufferConfig) (f : Frame)
    (env : Nat → AttemptEnv) :
    ∀ fuel attempts st,
      st.sent.length ≤ ((writeFrameLoop cfg f env attempts st fuel).2).sent.length ∧
      ((writeFrameLoop cfg f env attempts st fuel).1 = .acked →
        st.sent.length + 1 ≤
          ((writeFrameLoop cfg f env attempts st fuel).2).sent.length) := by
  intro fuel
  induction fuel with
  | zero =>
    intro attempts st
    simp [writeFrameLoop]
  | succ fu ih =>
    intro attempts st
    simp only [writeFrameLoop]
    split
    · split
      · split
        · split
          · simp
          · rename_i st1 heq hne
            refine ⟨?_, fun _ => ?_⟩ <;>
              · have h := ih (attempts + 1)
                  ⟨(st.seq + 1) % 256, st.sent ++ [⟨cfg.ID, cfg.FrameType, st.seq, f.data⟩],
                    match (env attempts).sendErr with
                    | some e => st.logs ++ ["error sending frame: " ++ e]
                    | none => st.logs⟩
                simp at h
                omega
        · refine ⟨?_, fun _ => ?_⟩ <;>
            · have h := ih (attempts + 1)
                ⟨(st.seq + 1) % 256, st.sent ++ [⟨cfg.ID, cfg.FrameType, st.seq, f.data⟩],
                  match (env attempts).sendErr with
                  | some e => st.logs ++ ["error sending frame: " ++ e]
                  | none => st.logs⟩
              simp at h
              omega
      · refine ⟨?_, fun _ => ?_⟩ <;>
          · have h := ih (attempts + 1)
              ⟨(st.seq + 1) % 256, st.sent ++ [⟨cfg.ID, cfg.FrameType, st.seq, f.data⟩],
                match (env attempts).sendErr with
                | some e => st.logs ++ ["error sending frame: " ++ e]
                | none => st.logs⟩
            simp at h
            omega
    · simp

end Arnetwork
namespace Arnetwork

/-- With a `DataWithAck` frame type, `MaxRetries = R ≥ 0` and every
ack wait timing out, the retry loop started at `attempts` (with enough
fuel) exits via the loop guard after `R + 1 - attempts` further sends,
logs nothing (sends succeeding), and every frame it sent carries the
buffer's channel ID, frame type and the item's payload. -/
theorem writeFrameLoop_noack_exhausts (cfg : C2DBufferConfig) (f : Frame)
    (env : Nat → AttemptEnv) (R : Nat)
    (hty : cfg.FrameType = Arnetworkal.FrameTypeDataWithAck)
    (hR : cfg.MaxRetries = (R : Int))
    (hack : ∀ n, (env n).ackWait = .timedOut)
    (hsend : ∀ n, (env n).sendErr = none) :
    ∀ fuel attempts st, attempts ≤ R → R + 1 - attempts < fuel →
      (writeFrameLoop cfg f env attempts st fuel).1 = .exhausted ∧
      (writeFrameLoop cfg f env attempts st fuel).2.sent.length
        = st.sent.length + (R + 1 - attempts) ∧
      (writeFrameLoop cfg f env attempts st fuel).2.logs = st.logs ∧
      ∀ fr ∈ (writeFrameLoop cfg f env attempts st fuel).2.sent,
        fr ∈ st.sent ∨
          (fr.id = cfg.ID ∧ fr.type = cfg.FrameType ∧ fr.data = f.data) := by
  intro fuel
  induction fuel with
  | zero =>
    intro attempts st h1 h2
    exact absurd h2 (by omega)
  | succ fu ih =>
    intro attempts st h1 h2
    have hcond : loopCond cfg.MaxRetries attempts = true := by
      simp [loopCond, hR]
      omega
    rcases eq_or_lt_of_le h1 with heq | hlt
    · -- attempts = R: one more send, then the guard fails
      obtain ⟨fu2, rfl⟩ : ∃ fu2, fu = fu2 + 1 := ⟨fu - 1, by omega⟩
      have hcond2 : loopCond cfg.MaxRetries (attempts + 1) = false := by
        simp [loopCond, hR]
        omega
      simp only [writeFrameLoop, hcond, hty, hack attempts, hsend attempts,
        if_true, hcond2]
      simp [← heq]
      intro fr hfr
      rcases hfr with hfr | hfr
      · exact Or.inl hfr
      · exact Or.inr (by simp [hfr, hty])
    · -- attempts < R: recurse
      have := ih (attempts + 1)
        ⟨(st.seq + 1) % 256,
          st.sent ++ [⟨cfg.ID, cfg.FrameType, st.seq, f.data⟩], st.logs⟩
        (by omega) (by omega)
      rw [hty] at this
      simp only [writeFrameLoop, hcond, hty, hack attempts, hsend attempts,
        if_true]
      obtain ⟨o1, o2, o3, o4⟩ := this
      simp at o2 o3
      refine ⟨o1, by simp [o2]; omega, o3, ?_⟩
      intro fr hfr
      rcases o4 fr hfr with hfr2 | hfr2
      · simp at hfr2
        rcases hfr2 with hfr3 | hfr3
        · exact Or.inl hfr3
        · exact Or.inr (by simp [hfr3, hty])
      · exact Or.inr hfr2

end Arnetwork
namespace Arnetwork

/-- C1 (amended): a C2D buffer configured with `maxRetries = R`
(`R ≥ 0`) and frame type `DataWithAck`, when no acknowledgment ever
arrives, sends the queued item's frame exactly `R + 1` times;
the item is then abandoned silently — no delivery failure is reported
to the caller or the log — and the buffer proceeds to the next queued
item. -/
theorem writeFrame_retry_bound (cfg : C2DBufferConfig) (R : Nat)
    (f g : Frame) (env envg : Nat → AttemptEnv) (fuel : Nat) (st : BufState)
    (hty : cfg.FrameType = Arnetworkal.FrameTypeDataWithAck)
    (hR : cfg.MaxRetries = (R : Int))
    (hack : ∀ n, (env n).ackWait = .timedOut)
    (hsend : ∀ n, (env n).sendErr = none)
    (hfuel : R + 1 < fuel) :
    (writeFrame cfg f env fuel st).1 = .exhausted ∧
    (writeFrame cfg f env fuel st).2.sent.length = st.sent.length + (R + 1) ∧
    (writeFrame cfg f env fuel st).2.logs = st.logs ∧
    (writeFrames cfg fuel [(f, env), (g, envg)] st).1 =
      .exhausted ::
        (writeFrames cfg fuel [(g, envg)] (writeFrame cfg f env fuel st).2).1 := by
  obtain ⟨o1, o2, o3, _⟩ := writeFrameLoop_noack_exhausts cfg f env R hty hR
    hack hsend fuel 0 st (by omega) (by omega)
  have hw : writeFrame cfg f env fuel st
      = (.exhausted, (writeFrame cfg f env fuel st).2) := Prod.ext o1 rfl
  refine ⟨o1, by simpa using o2, o3, ?_⟩
  conv_lhs => rw [writeFrames, hw]

/-- Witness for `writeFrame_retry_bound` at `R = 0`. -/
theorem writeFrame_retry_bound_witness :
    (writeFrame ⟨11, 3, 8, false, 0, 5⟩ ⟨[1, 2, 3]⟩
        (fun _ => ⟨none, .timedOut⟩) 2 ⟨0, [], []⟩).1 = .exhausted ∧
    (writeFrame ⟨11, 3, 8, false, 0, 5⟩ ⟨[1, 2, 3]⟩
        (fun _ => ⟨none, .timedOut⟩) 2 ⟨0, [], []⟩).2.sent.length
      = (⟨0, [], []⟩ : BufState).sent.length + (0 + 1) ∧
    (writeFrame ⟨11, 3, 8, false, 0, 5⟩ ⟨[1, 2, 3]⟩
        (fun _ => ⟨none, .timedOut⟩) 2 ⟨0, [], []⟩).2.logs
      = (⟨0, [], []⟩ : BufState).logs ∧
    (writeFrames ⟨11, 3, 8, false, 0, 5⟩ 2
        [(⟨[1, 2, 3]⟩, fun _ => ⟨none, .timedOut⟩),
          (⟨[4]⟩, fun _ => ⟨none, .timedOut⟩)] ⟨0, [], []⟩).1 =
      .exhausted ::
        (writeFrames ⟨11, 3, 8, false, 0, 5⟩ 2
          [(⟨[4]⟩, fun _ => ⟨none, .timedOut⟩)]
          (writeFrame ⟨11, 3, 8, false, 0, 5⟩ ⟨[1, 2, 3]⟩
            (fun _ => ⟨none, .timedOut⟩) 2 ⟨0, [], []⟩).2).1 :=
  writeFrame_retry_bound ⟨11, 3, 8, false, 0, 5⟩ 0 ⟨[1, 2, 3]⟩ ⟨[4]⟩
    (fun _ => ⟨none, .timedOut⟩) (fun _ => ⟨none, .timedOut⟩) 2 ⟨0, [], []⟩
    rfl rfl (fun _ => rfl) (fun _ => rfl) (by omega)

/-- C1 as stated is false on the code: with `maxRetries = 0`, frame
type `DataWithAck` and no ack arriving, the item is abandoned after
its `R + 1 = 1` send, but nothing whatsoever is reported to the
caller or the log — the final log trace is empty, so no
`DeliveryFailed` report exists. -/
theorem writeFrame_no_report_cex :
    writeFrame ⟨11, 3, 8, false, 0, 5⟩ ⟨[1, 2, 3]⟩
        (fun _ => ⟨none, .timedOut⟩) 2 ⟨0, [], []⟩
      = (.exhausted, ⟨1, [⟨11, 3, 0, [1, 2, 3]⟩], []⟩) := by
  decide

/-- C2: the code contradicts the claim.  A queued item on a buffer
with frame type `Data` and `maxRetries = 2` is handed to the
Connection three times, not once — the retry loop does not return
early for frame types other than `DataWithAck` — and with
`maxRetries = -1` the loop never exits at all (here it is still
running after 50 iterations). -/
theorem writeFrame_data_resend_bug :
    (writeFrame ⟨10, 1, 8, true, 2, 5⟩ ⟨[7]⟩
        (fun _ => ⟨none, .timedOut⟩) 4 ⟨0, [], []⟩).2.sent.length = 3 ∧
    (writeFrame ⟨10, 1, 8, true, 2, 5⟩ ⟨[7]⟩
        (fun _ => ⟨none, .timedOut⟩) 4 ⟨0, [], []⟩).1 = .exhausted ∧
    (writeFrame ⟨10, 1, 8, true, -1, 5⟩ ⟨[7]⟩
        (fun _ => ⟨none, .timedOut⟩) 50 ⟨0, [], []⟩).1 = .diverged := by
  decide

end Arnetwork
namespace Arnetwork

/-- C3: for a `DataWithAck` item whose first transmitted frame carries
sequence number `st.seq`, the send succeeds immediately — `acked` with
exactly one send, no resend — iff an ack frame whose payload equals
the decimal bytes of that sequence number arrives from the ack channel
before `AckTimeout` fires; and after an ack carrying any other payload
the item is never `acked` without at least one resend. -/
theorem writeFrame_ack_correlation (cfg : C2DBufferConfig) (f : Frame)
    (env : Nat → AttemptEnv) (fu : Nat) (st : BufState)
    (hty : cfg.FrameType = Arnetworkal.FrameTypeDataWithAck)
    (hguard : loopCond cfg.MaxRetries 0 = true) :
    (((writeFrame cfg f env (fu + 1) st).1 = .acked ∧
        (writeFrame cfg f env (fu + 1) st).2.sent.length
          = st.sent.length + 1)
      ↔ (env 0).ackWait = .ackFrame ⟨seqAckBytes st.seq⟩) ∧
    (∀ a, (env 0).ackWait = .ackFrame a → a.data ≠ seqAckBytes st.seq →
      (writeFrame cfg f env (fu + 1) st).1 = .acked →
      st.sent.length + 2 ≤ (writeFrame cfg f env (fu + 1) st).2.sent.length) := by
  simp only [writeFrame, writeFrameLoop, hguard, hty, if_true, Nat.zero_add]
  cases hw : (env 0).ackWait with
  | ackFrame a =>
    obtain ⟨adata⟩ := a
    by_cases hm : adata = seqAckBytes st.seq
    · subst hm
      simp only [hw, if_pos rfl]
      refine ⟨by simp, ?_⟩
      rintro a ha hne _
      injection ha with h2
      subst h2
      exact absurd rfl hne
    · simp only [hw, if_neg hm]
      constructor
      · constructor
        · rintro ⟨ha, hl⟩
          have hm2 := (writeFrameLoop_sent_mono cfg f env fu 1 _).2 ha
          simp at hm2
          exact absurd hl (by omega)
        · intro h
          injection h with h2
          exact absurd (congrArg Frame.data h2) hm
      · rintro a ha hne hacked
        injection ha with h2
        have hm2 := (writeFrameLoop_sent_mono cfg f env fu 1 _).2 hacked
        simp at hm2
        omega
  | timedOut =>
    simp only [hw]
    constructor
    · constructor
      · rintro ⟨ha, hl⟩
        have hm2 := (writeFrameLoop_sent_mono cfg f env fu 1 _).2 ha
        simp at hm2
        exact absurd hl (by omega)
      · intro h
        exact absurd h (by simp)
    · rintro a ha hne hacked
      exact absurd ha (by simp)

/-- Witness for `writeFrame_ack_correlation`: a matching ack yields an
immediate `acked` with a single send. -/
theorem writeFrame_ack_correlation_witness :
    (writeFrame ⟨11, 3, 8, false, 0, 5⟩ ⟨[1]⟩
        (fun _ => ⟨none, .ackFrame ⟨seqAckBytes 0⟩⟩) 2 ⟨0, [], []⟩).1
      = .acked ∧
    (writeFrame ⟨11, 3, 8, false, 0, 5⟩ ⟨[1]⟩
        (fun _ => ⟨none, .ackFrame ⟨seqAckBytes 0⟩⟩) 2 ⟨0, [], []⟩).2.sent.length
      = 1 :=
  ((writeFrame_ack_correlation ⟨11, 3, 8, false, 0, 5⟩ ⟨[1]⟩
      (fun _ => ⟨none, .ackFrame ⟨seqAckBytes 0⟩⟩) 1 ⟨0, [], []⟩
      rfl rfl).1).mpr rfl

end Arnetwork
namespace Arnetwork

/-- The sequence values `s % 256, (s+1) % 256, ..., (s+k-1) % 256`. -/
def seqTrace (s : Nat) : Nat → List Nat
  | 0 => []
  | k + 1 => s % 256 :: seqTrace (s + 1) k

/-- `seqTrace` only depends on its start value mod 256. -/
theorem seqTrace_congr : ∀ k s t, s % 256 = t % 256 →
    seqTrace s k = seqTrace t k := by
  intro k
  induction k with
  | zero => intro s t h; rfl
  | succ k ih =>
    intro s t h
    simp only [seqTrace, h]
    rw [ih (s + 1) (t + 1) (by omega)]

/-- Length of a `seqTrace`. -/
theorem seqTrace_length : ∀ k s, (seqTrace s k).length = k := by
  intro k
  induction k with
  | zero => intro s; rfl
  | succ k ih => intro s; simp [seqTrace, ih]

/-- The `i`-th element of a `seqTrace`. -/
theorem seqTrace_get : ∀ k s i (h : i < (seqTrace s k).length),
    (seqTrace s k).get ⟨i, h⟩ = (s + i) % 256 := by
  intro k
  induction k with
  | zero => intro s i h; simp [seqTrace] at h
  | succ k ih =>
    intro s i h
    cases i with
    | zero => simp [seqTrace]
    | succ i =>
      have h2 : s + 1 + i = s + (i + 1) := by omega
      simp only [seqTrace, List.get_cons_succ]
      rw [ih (s + 1) i (by simpa [seqTrace] using h), h2]

/-- Splitting a `seqTrace`. -/
theorem seqTrace_append : ∀ k1 k2 s,
    seqTrace s (k1 + k2) = seqTrace s k1 ++ seqTrace (s + k1) k2 := by
  intro k1
  induction k1 with
  | zero => intro k2 s; simp [seqTrace]
  | succ k1 ih =>
    intro k2 s
    have h1 : k1 + 1 + k2 = (k1 + k2) + 1 := by omega
    have h2 : s + 1 + k1 = s + (k1 + 1) := by omega
    rw [h1]
    simp only [seqTrace, List.cons_append]
    rw [ih k2 (s + 1), h2]

/-- The frames sent by one retry loop carry consecutive sequence
numbers mod 256, continuing from the buffer's counter, and the counter
advances by exactly the number of frames sent. -/
theorem writeFrameLoop_seqs (cfg : C2DBufferConfig) (f : Frame)
    (env : Nat → AttemptEnv) :
    ∀ fuel attempts st, st.seq < 256 →
      ∃ k,
        (writeFrameLoop cfg f env attempts st fuel).2.sent.map
            Arnetworkal.Frame.seq
          = st.sent.map Arnetworkal.Frame.seq ++ seqTrace st.seq k ∧
        (writeFrameLoop cfg f env attempts st fuel).2.seq
          = (st.seq + k) % 256 ∧
        (writeFrameLoop cfg f env attempts st fuel).2.seq < 256 := by
  intro fuel
  induction fuel with
  | zero =>
    intro attempts st h
    refine ⟨0, ?_, ?_, ?_⟩ <;> simp [writeFrameLoop, seqTrace] <;> omega
  | succ fu ih =>
    intro attempts st h
    have hmod : (st.seq + 1) % 256 < 256 := by omega
    by_cases hc : loopCond cfg.MaxRetries attempts = true
    · by_cases hty : cfg.FrameType = Arnetworkal.FrameTypeDataWithAck
      · cases hw : (env attempts).ackWait with
        | ackFrame a =>
          by_cases hm : a.data = seqAckBytes st.seq
          · simp only [writeFrameLoop]
            rw [if_pos hc, if_pos hty, hw]
            dsimp only
            rw [if_pos hm]
            refine ⟨1, ?_, ?_, ?_⟩ <;>
              (simp [seqTrace, Nat.mod_eq_of_lt h]; try omega)
          · simp only [writeFrameLoop]
            rw [if_pos hc, if_pos hty, hw]
            dsimp only
            rw [if_neg hm]
            obtain ⟨k2, e1, e2, e3⟩ := ih (attempts + 1)
              ⟨(st.seq + 1) % 256,
                st.sent ++ [⟨cfg.ID, cfg.FrameType, st.seq, f.data⟩],
                match (env attempts).sendErr with
                | some e => st.logs ++ ["error sending frame: " ++ e]
                | none => st.logs⟩ hmod
            dsimp only at e1 e2 e3
            refine ⟨k2 + 1, ?_, ?_, e3⟩
            · rw [e1, seqTrace_congr k2 ((st.seq + 1) % 256) (st.seq + 1)
                (by omega)]
              simp [seqTrace, Nat.mod_eq_of_lt h]
            · rw [e2]
              omega
        | timedOut =>
          simp only [writeFrameLoop]
          rw [if_pos hc, if_pos hty, hw]
          dsimp only
          obtain ⟨k2, e1, e2, e3⟩ := ih (attempts + 1)
            ⟨(st.seq + 1) % 256,
              st.sent ++ [⟨cfg.ID, cfg.FrameType, st.seq, f.data⟩],
              match (env attempts).sendErr with
              | some e => st.logs ++ ["error sending frame: " ++ e]
              | none => st.logs⟩ hmod
          dsimp only at e1 e2 e3
          refine ⟨k2 + 1, ?_, ?_, e3⟩
          · rw [e1, seqTrace_congr k2 ((st.seq + 1) % 256) (st.seq + 1)
              (by omega)]
            simp [seqTrace, Nat.mod_eq_of_lt h]
          · rw [e2]
            omega
      · simp only [writeFrameLoop]
        rw [if_pos hc, if_neg hty]
        obtain ⟨k2, e1, e2, e3⟩ := ih (attempts + 1)
          ⟨(st.seq + 1) % 256,
            st.sent ++ [⟨cfg.ID, cfg.FrameType, st.seq, f.data⟩],
            match (env attempts).sendErr with
            | some e => st.logs ++ ["error sending frame: " ++ e]
            | none => st.logs⟩ hmod
        dsimp only at e1 e2 e3
        refine ⟨k2 + 1, ?_, ?_, e3⟩
        · rw [e1, seqTrace_congr k2 ((st.seq + 1) % 256) (st.seq + 1)
            (by omega)]
          simp [seqTrace, Nat.mod_eq_of_lt h]
        · rw [e2]
          omega
    · simp only [writeFrameLoop]
      rw [if_neg hc]
      exact ⟨0, by simp [seqTrace], by dsimp only; omega, h⟩

/-- The whole queue-draining run sends frames with consecutive
sequence numbers mod 256, across item boundaries and retries. -/
theorem writeFrames_seqs (cfg : C2DBufferConfig) (fuel : Nat) :
    ∀ items st, st.seq < 256 →
      ∃ k,
        (writeFrames cfg fuel items st).2.sent.map Arnetworkal.Frame.seq
          = st.sent.map Arnetworkal.Frame.seq ++ seqTrace st.seq k ∧
        (writeFrames cfg fuel items st).2.seq = (st.seq + k) % 256 ∧
        (writeFrames cfg fuel items st).2.seq < 256 := by
  intro items
  induction items with
  | nil =>
    intro st h
    refine ⟨0, ?_, ?_, ?_⟩ <;> simp [writeFrames, seqTrace] <;> omega
  | cons item rest ih =>
    obtain ⟨f, env⟩ := item
    intro st h
    obtain ⟨k1, e1, e2, e3⟩ := writeFrameLoop_seqs cfg f env fuel 0 st h
    rcases hw : writeFrame cfg f env fuel st with ⟨r, st1⟩
    have hw2 : writeFrameLoop cfg f env 0 st fuel = (r, st1) := hw
    rw [hw2] at e1 e2 e3
    dsimp only at e1 e2 e3
    have key : ∀ k2,
        (writeFrames cfg fuel rest st1).2.sent.map Arnetworkal.Frame.seq
            = st1.sent.map Arnetworkal.Frame.seq ++ seqTrace st1.seq k2 →
        (writeFrames cfg fuel rest st1).2.seq = (st1.seq + k2) % 256 →
        (writeFrames cfg fuel rest st1).2.sent.map Arnetworkal.Frame.seq
            = st.sent.map Arnetworkal.Frame.seq
              ++ seqTrace st.seq (k1 + k2) ∧
          (writeFrames cfg fuel rest st1).2.seq
            = (st.seq + (k1 + k2)) % 256 := by
      intro k2 g1 g2
      constructor
      · rw [g1, e1, seqTrace_append k1 k2 st.seq,
          seqTrace_congr k2 st1.seq (st.seq + k1) (by omega),
          List.append_assoc]
      · rw [g2, e2]
        omega
    cases r with
    | diverged =>
      refine ⟨k1, ?_, ?_, ?_⟩ <;> simp only [writeFrames, hw]
      · exact e1
      · exact e2
      · exact e3
    | acked =>
      obtain ⟨k2, g1, g2, g3⟩ := ih st1 e3
      obtain ⟨o1, o2⟩ := key k2 g1 g2
      refine ⟨k1 + k2, ?_, ?_, ?_⟩ <;> simp only [writeFrames, hw]
      · exact o1
      · exact o2
      · exact g3
    | exhausted =>
      obtain ⟨k2, g1, g2, g3⟩ := ih st1 e3
      obtain ⟨o1, o2⟩ := key k2 g1 g2
      refine ⟨k1 + k2, ?_, ?_, ?_⟩ <;> simp only [writeFrames, hw]
      · exact o1
      · exact o2
      · exact g3

/-- C4: starting from sequence counter `s0 < 256`, the `i`-th frame a
C2D buffer hands to the Connection — across queued items and retries —
carries sequence number `(s0 + i) % 256`: the per-channel counter is
incremented by exactly one on every frame sent, wrapping mod 256, and
only the buffer's own writer updates it. -/
theorem c2dBuffer_seq_monotone (cfg : C2DBufferConfig) (fuel : Nat)
    (items : List (Frame × (Nat → AttemptEnv))) (s0 : Nat) (h : s0 < 256)
    (i : Nat)
    (hi : i < ((writeFrames cfg fuel items ⟨s0, [], []⟩).2.sent).length) :
    (((writeFrames cfg fuel items ⟨s0, [], []⟩).2.sent).get ⟨i, hi⟩).seq
      = (s0 + i) % 256 := by
  obtain ⟨k, e1, _, _⟩ := writeFrames_seqs cfg fuel items ⟨s0, [], []⟩ h
  simp only [List.map_nil, List.nil_append] at e1
  have hm : i < ((writeFrames cfg fuel items
      ⟨s0, [], []⟩).2.sent.map Arnetworkal.Frame.seq).length := by
    simpa using hi
  have hk : i < (seqTrace s0 k).length := by
    rw [← e1]
    exact hm
  have step1 : (((writeFrames cfg fuel items ⟨s0, [], []⟩).2.sent).get
      ⟨i, hi⟩).seq
      = ((writeFrames cfg fuel items
          ⟨s0, [], []⟩).2.sent.map Arnetworkal.Frame.seq).get ⟨i, hm⟩ := by
    simp [List.get_eq_getElem, List.getElem_map]
  have step2 := List.get_of_eq e1 ⟨i, hm⟩
  rw [step1, step2]
  exact seqTrace_get k s0 i hk

/-- Witness for `c2dBuffer_seq_monotone`: two queued `Data` items
starting at counter 255 produce sequence numbers 255 then 0. -/
theorem c2dBuffer_seq_monotone_witness :
    (((writeFrames ⟨10, 1, 8, true, 0, 5⟩ 2
        [(⟨[1]⟩, fun _ => ⟨none, .timedOut⟩),
          (⟨[2]⟩, fun _ => ⟨none, .timedOut⟩)]
        ⟨255, [], []⟩).2.sent).get ⟨1, by decide⟩).seq = (255 + 1) % 256 :=
  c2dBuffer_seq_monotone ⟨10, 1, 8, true, 0, 5⟩ 2
    [(⟨[1]⟩, fun _ => ⟨none, .timedOut⟩), (⟨[2]⟩, fun _ => ⟨none, .timedOut⟩)]
    255 (by decide) 1 (by decide)

end Arnetwork
namespace Wifi

/-- C5: the Connection's receive loop never exits on a transient
error: a read timeout is not treated as an error and the loop simply
reads again (the delivered output is unchanged); a socket read error,
a deadline error and a datagram whose decode fails are each delivered
to the error channel and the loop continues with the remaining trace,
never stopping on them (`pushError` leaves `stopped` untouched); and
the loop exits exactly when the shutdown signal is observed. -/
theorem receivePackets_transient_errors
    (decodeData : List Nat → Except String (List Arnetworkal.Frame)) :
    (∀ rest, receivePackets decodeData (.readTimeout :: rest)
      = receivePackets decodeData rest) ∧
    (∀ m rest, receivePackets decodeData (.readErr m :: rest)
      = pushError ("error receiving data from inbound connection: " ++ m)
          (receivePackets decodeData rest)) ∧
    (∀ m rest, receivePackets decodeData (.deadlineErr m :: rest)
      = pushError ("error setting read deadline: " ++ m)
          (receivePackets decodeData rest)) ∧
    (∀ d m rest, decodeData d = .error m →
      receivePackets decodeData (.datagram d :: rest)
        = pushError ("error decoding inbound data: " ++ m)
            (receivePackets decodeData rest)) ∧
    (∀ m rest, (receivePackets decodeData (.readErr m :: rest)).stopped
      = (receivePackets decodeData rest).stopped) ∧
    (∀ e out, (pushError e out).stopped = out.stopped) ∧
    (∀ evs, (receivePackets decodeData evs).stopped = true ↔
      RecvEvent.stop ∈ evs) := by
  refine ⟨fun rest => rfl, fun m rest => rfl, fun m rest => rfl,
    fun d m rest hd => by simp [receivePackets, hd], fun m rest => rfl,
    fun e out => rfl, ?_⟩
  intro evs
  induction evs with
  | nil => simp [receivePackets]
  | cons e rest ih =>
    cases e with
    | stop => simp [receivePackets]
    | deadlineErr m => simpa [receivePackets, pushError] using ih
    | readTimeout => simpa [receivePackets] using ih
    | readErr m => simpa [receivePackets, pushError] using ih
    | datagram d =>
      cases hd : decodeData d with
      | error m => simpa [receivePackets, hd, pushError] using ih
      | ok fs => simpa [receivePackets, hd, pushFrames] using ih

/-- Witness for `receivePackets_transient_errors`: a datagram whose
decode fails is delivered to the error channel and the loop goes on to
observe the shutdown signal. -/
theorem receivePackets_transient_errors_witness :
    receivePackets (fun _ => .error "bad")
        [RecvEvent.datagram [0], RecvEvent.stop]
      = pushError ("error decoding inbound data: " ++ "bad")
          (receivePackets (fun _ => .error "bad") [RecvEvent.stop]) :=
  (receivePackets_transient_errors (fun _ => .error "bad")).2.2.2.1
    [0] "bad" [RecvEvent.stop] rfl

/-- C6: a negotiation response decoded with non-zero status makes
`NewConnection` fail with the connection-refused error having opened
no UDP socket; and in any run whatsoever, a UDP socket is opened only
if the negotiation response was decoded with status zero. -/
theorem NewConnection_refused (env : NegotiationEnv) (p : Nat)
    (r : ConnectionNegotiationResponse)
    (h1 : env.freePort = .ok p) (h2 : env.resolveNegAddr = .ok ())
    (h3 : env.dialNeg = .ok ()) (h4 : env.marshalReq = .ok ())
    (h5 : env.writeReq = .ok ()) (h6 : env.readResp = .ok ())
    (hr : env.unmarshalResp = .ok r) (hs : r.status ≠ 0) :
    NewConnection env
      = (.error "connection negotiation failed; connection refused by device",
          []) ∧
    ∀ envB : NegotiationEnv, (NewConnection envB).2 ≠ [] →
      ∃ rB, envB.unmarshalResp = .ok rB ∧ rB.status = 0 := by
  constructor
  · simp only [NewConnection, h1, h2, h3, h4, h5, h6, hr]
    rw [if_pos hs]
  · intro envB hB
    obtain ⟨fp, rna, dn, mr, wr, rr, ur, rc, dc, rd, ld⟩ := envB
    dsimp only [NewConnection] at hB ⊢
    cases fp with
    | error e => simp at hB
    | ok pB =>
    cases rna with
    | error e => simp at hB
    | ok u1 =>
    cases dn with
    | error e => simp at hB
    | ok u2 =>
    cases mr with
    | error e => simp at hB
    | ok u3 =>
    cases wr with
    | error e => simp at hB
    | ok u4 =>
    cases rr with
    | error e => simp at hB
    | ok u5 =>
    cases ur with
    | error e => simp at hB
    | ok rB =>
    dsimp only at hB
    by_cases hst : rB.status ≠ 0
    · rw [if_pos hst] at hB
      simp at hB
    · push_neg at hst
      exact ⟨rB, rfl, hst⟩

/-- Witness for `NewConnection_refused`: a concrete environment whose
response has status 1. -/
theorem NewConnection_refused_witness :
    NewConnection ⟨.ok 44, .ok (), .ok (), .ok (), .ok (), .ok (),
        .ok ⟨1, 2345⟩, .ok (), .ok (), .ok (), .ok ()⟩
      = (.error "connection negotiation failed; connection refused by device",
          []) ∧
    ∀ envB : NegotiationEnv, (NewConnection envB).2 ≠ [] →
      ∃ rB, envB.unmarshalResp = .ok rB ∧ rB.status = 0 :=
  NewConnection_refused ⟨.ok 44, .ok (), .ok (), .ok (), .ok (), .ok (),
      .ok ⟨1, 2345⟩, .ok (), .ok (), .ok (), .ok ()⟩ 44 ⟨1, 2345⟩
    rfl rfl rfl rfl rfl rfl rfl (by decide)

end Wifi
namespace Wifi

/-- Reading back the four little-endian bytes of a value below `2^32`
recovers it. -/
theorem readUint32LE_uint32LE (n : Nat) (h : n < 4294967296) :
    readUint32LE (n % 256) (n / 256 % 256) (n / 65536 % 256)
      (n / 16777216 % 256) = n := by
  simp only [readUint32LE]
  omega

/-- C7: decoding the bytes produced by encoding a valid frame yields
exactly that one frame; the encoding is the 7-byte header
`[type:1B][channelID:1B][sequence:1B][totalLength:4B little-endian]`
followed by the payload (see `defaultEncodeFrame`). -/
theorem frame_roundtrip (f : Arnetworkal.Frame)
    (hlen : 7 + f.data.length < 4294967296) :
    defaultDecodeData (defaultEncodeFrame f) = .ok [f] := by
  obtain ⟨fid, fty, fseq, fdata⟩ := f
  simp only at hlen
  show defaultDecodeData
      (fty :: fid :: fseq :: ((7 + fdata.length) % 256)
        :: ((7 + fdata.length) / 256 % 256)
        :: ((7 + fdata.length) / 65536 % 256)
        :: ((7 + fdata.length) / 16777216 % 256) :: fdata) = _
  rw [defaultDecodeData]
  rw [readUint32LE_uint32LE (7 + fdata.length) hlen]
  rw [if_neg (by omega)]
  have hd : 7 + fdata.length - 7 = fdata.length := by omega
  rw [hd, List.drop_length, List.take_length]
  rw [defaultDecodeData]

/-- Witness for `frame_roundtrip` at a small concrete frame. -/
theorem frame_roundtrip_witness :
    defaultDecodeData (defaultEncodeFrame ⟨1, 3, 7, [9, 8]⟩)
      = .ok [⟨1, 3, 7, [9, 8]⟩] :=
  frame_roundtrip ⟨1, 3, 7, [9, 8]⟩ (by decide)

end Wifi
namespace Wifi

/-- C8 (amended): `Send` performs no size check at all — it succeeds
exactly when the underlying socket write succeeds, regardless of the
encoded frame's size; the 65507-byte limit `maxUDPDataBytes` only
sizes the receive buffer, and `Send` never truncates (it hands the
whole encoding to the write). -/
theorem Send_no_size_check (enc : Arnetworkal.Frame → List Nat)
    (write : List Nat → Except String Nat) (f : Arnetworkal.Frame) :
    ((Send enc write f = none) ↔ ∃ n, write (enc f) = .ok n) ∧
    maxUDPDataBytes = 65507 := by
  refine ⟨⟨?_, ?_⟩, rfl⟩
  · intro h
    cases hw : write (enc f) with
    | error e => simp [Send, hw] at h
    | ok n => exact ⟨n, rfl⟩
  · rintro ⟨n, hn⟩
    simp [Send, hn]

/-- The encoded length of a frame: a 7-byte header plus the payload. -/
theorem defaultEncodeFrame_length (f : Arnetworkal.Frame) :
    (defaultEncodeFrame f).length = 7 + f.data.length := by
  simp [defaultEncodeFrame, uint32LE]
  omega

set_option maxRecDepth 1000000 in
/-- C8 as stated is false on the code: `Send` does not fail fast on
oversized frames.  A frame whose encoding is 65508 bytes — more than
`maxUDPDataBytes` — is handed to the socket write unchecked, and when
the write accepts it, `Send` reports success with no error. -/
theorem Send_oversized_cex :
    (defaultEncodeFrame ⟨0, 1, 0, List.replicate 65501 0⟩).length = 65508 ∧
    65508 > maxUDPDataBytes ∧
    Send defaultEncodeFrame (fun d => .ok d.length)
      ⟨0, 1, 0, List.replicate 65501 0⟩ = none :=
  ⟨(defaultEncodeFrame_length ⟨0, 1, 0, List.replicate 65501 0⟩).trans
      ((congrArg (fun x => 7 + x)
        (show (Arnetworkal.Frame.mk 0 1 0
            (List.replicate 65501 0)).data.length = 65501
          from List.length_replicate 65501 0)).trans rfl),
    by decide, rfl⟩

/-- C10: at the public interface, `Receive` distinguishes orderly
shutdown from failure: once `Close` has stopped the receive loop only
the closed done channel can fire, yielding the zero `Frame`, `false`
and a nil error, whereas a delivered transport or decode failure
yields the zero `Frame`, `false` and that non-nil error, and a
received frame yields `(frame, true, nil)`. -/
theorem Receive_shutdown_vs_error :
    Receive .doneClosed = (Arnetworkal.zeroFrame, false, none) ∧
    (∀ e, Receive (.errReady e) = (Arnetworkal.zeroFrame, false, some e)) ∧
    (∀ e, (some e : Option String) ≠ none) ∧
    (∀ f, Receive (.frameReady f) = (f, true, none)) :=
  ⟨rfl, fun _ => rfl, fun e => by simp, fun _ => rfl⟩

end Wifi
namespace Common

/-- A projection of the state is unchanged by a run all of whose
events preserve it. -/
theorem runCommon_preserve {α : Type} (proj : CommonState → α) :
    ∀ (evs : List CommonEvent) (c : CommonState),
      (∀ s e, e ∈ evs → proj (applyCommonEvent s e) = proj s) →
      proj (runCommon c evs) = proj c := by
  intro evs
  induction evs with
  | nil => intro c h; rfl
  | cons e rest ih =>
    intro c h
    have h2 := ih (applyCommonEvent c e)
      (fun s ev hev => h s ev (by simp [hev]))
    have h1 := h c e (by simp)
    calc proj (runCommon c (e :: rest))
        = proj (runCommon (applyCommonEvent c e) rest) := rfl
      _ = proj (applyCommonEvent c e) := h2
      _ = proj c := h1

/-- Handlers other than `batteryStateChanged` leave `batteryPercent`
unchanged. -/
theorem applyCommonEvent_battery (s : CommonState) (e : CommonEvent)
    (h : storesBattery e = false) :
    (applyCommonEvent s e).batteryPercent = s.batteryPercent := by
  cases e <;> simp_all [applyCommonEvent, storesBattery]

/-- Handlers other than `wifiSignalChanged` leave `rssi` unchanged. -/
theorem applyCommonEvent_rssi (s : CommonState) (e : CommonEvent)
    (h : storesRSSI e = false) :
    (applyCommonEvent s e).rssi = s.rssi := by
  cases e <;> simp_all [applyCommonEvent, storesRSSI]

/-- Handlers other than `massStorageContent` leave the six
mass-storage content fields unchanged. -/
theorem applyCommonEvent_massContent (s : CommonState) (e : CommonEvent)
    (h : storesMassContent e = false) :
    (applyCommonEvent s e).massStorageID = s.massStorageID ∧
    (applyCommonEvent s e).photoCount = s.photoCount ∧
    (applyCommonEvent s e).videoCount = s.videoCount ∧
    (applyCommonEvent s e).pudCount = s.pudCount ∧
    (applyCommonEvent s e).crashLogCount = s.crashLogCount ∧
    (applyCommonEvent s e).rawPhotoCount = s.rawPhotoCount := by
  cases e <;> simp_all [applyCommonEvent, storesMassContent]

/-- Handlers other than `massStorageContentForCurrentRun` leave the
four current-run fields unchanged. -/
theorem applyCommonEvent_currentRun (s : CommonState) (e : CommonEvent)
    (h : storesCurrentRun e = false) :
    (applyCommonEvent s e).currentRunMassStorageID
        = s.currentRunMassStorageID ∧
    (applyCommonEvent s e).currentRunPhotoCount = s.currentRunPhotoCount ∧
    (applyCommonEvent s e).currentRunVideoCount = s.currentRunVideoCount ∧
    (applyCommonEvent s e).currentRunRawPhotoCount
        = s.currentRunRawPhotoCount := by
  cases e <;> simp_all [applyCommonEvent, storesCurrentRun]

/-- C9: every `commonState` accessor follows reported-vs-default
semantics: before the corresponding handler has ever stored a value
the accessor returns the zero value paired with `false`, and after the
handler stores reported values the accessor returns them paired with
`true`.  In particular `BatteryPercent` is `(0, false)` until
`batteryStateChanged` runs with percent `p`, after which it is
`(p, true)`. -/
theorem commonState_reported_semantics :
    (∀ evs : List CommonEvent,
      (∀ p, CommonEvent.batteryStateChanged p ∉ evs) →
        BatteryPercent (runCommon initialCommonState evs) = (0, false)) ∧
    (∀ (s : CommonState) (p : Nat),
      BatteryPercent (applyCommonEvent s (.batteryStateChanged p))
        = (p, true)) ∧
    (∀ evs : List CommonEvent,
      (∀ r, CommonEvent.wifiSignalChanged r ∉ evs) →
        RSSI (runCommon initialCommonState evs) = (0, false)) ∧
    (∀ (s : CommonState) (r : Int),
      RSSI (applyCommonEvent s (.wifiSignalChanged r)) = (r, true)) ∧
    (∀ evs : List CommonEvent,
      (∀ a b c d e g, CommonEvent.massStorageContent a b c d e g ∉ evs) →
        MassStorageID (runCommon initialCommonState evs) = (0, false) ∧
        PhotoCount (runCommon initialCommonState evs) = (0, false) ∧
        VideoCount (runCommon initialCommonState evs) = (0, false) ∧
        PudCount (runCommon initialCommonState evs) = (0, false) ∧
        CrashLogCount (runCommon initialCommonState evs) = (0, false) ∧
        RawPhotoCount (runCommon initialCommonState evs) = (0, false)) ∧
    (∀ (s : CommonState) (a b c d e g : Nat),
      MassStorageID (applyCommonEvent s (.massStorageContent a b c d e g))
          = (a, true) ∧
      PhotoCount (applyCommonEvent s (.massStorageContent a b c d e g))
          = (b, true) ∧
      VideoCount (applyCommonEvent s (.massStorageContent a b c d e g))
          = (c, true) ∧
      PudCount (applyCommonEvent s (.massStorageContent a b c d e g))
          = (d, true) ∧
      CrashLogCount (applyCommonEvent s (.massStorageContent a b c d e g))
          = (e, true) ∧
      RawPhotoCount (applyCommonEvent s (.massStorageContent a b c d e g))
          = (g, true)) ∧
    (∀ evs : List CommonEvent,
      (∀ a b c d,
          CommonEvent.massStorageContentForCurrentRun a b c d ∉ evs) →
        CurrentRunMassStorageID (runCommon initialCommonState evs)
            = (0, false) ∧
        CurrentRunPhotoCount (runCommon initialCommonState evs)
            = (0, false) ∧
        CurrentRunVideoCount (runCommon initialCommonState evs)
            = (0, false) ∧
        CurrentRunRawPhotoCount (runCommon initialCommonState evs)
            = (0, false)) ∧
    (∀ (s : CommonState) (a b c d : Nat),
      CurrentRunMassStorageID
          (applyCommonEvent s (.massStorageContentForCurrentRun a b c d))
          = (a, true) ∧
      CurrentRunPhotoCount
          (applyCommonEvent s (.massStorageContentForCurrentRun a b c d))
          = (b, true) ∧
      CurrentRunVideoCount
          (applyCommonEvent s (.massStorageContentForCurrentRun a b c d))
          = (c, true) ∧
      CurrentRunRawPhotoCount
          (applyCommonEvent s (.massStorageContentForCurrentRun a b c d))
          = (d, true)) := by
  refine ⟨?_, fun s p => rfl, ?_, fun s r => rfl, ?_,
    fun s a b c d e g => ⟨rfl, rfl, rfl, rfl, rfl, rfl⟩, ?_,
    fun s a b c d => ⟨rfl, rfl, rfl, rfl⟩⟩
  · intro evs hnot
    have hp := runCommon_preserve (fun c => c.batteryPercent) evs
      initialCommonState
      (fun s e he => applyCommonEvent_battery s e (by
        cases e <;> first
          | exact absurd he (hnot _)
          | simp [storesBattery]))
    have hb : (runCommon initialCommonState evs).batteryPercent = none :=
      hp.trans rfl
    simp [BatteryPercent, hb]
  · intro evs hnot
    have hp := runCommon_preserve (fun c => c.rssi) evs initialCommonState
      (fun s e he => applyCommonEvent_rssi s e (by
        cases e <;> first
          | exact absurd he (hnot _)
          | simp [storesRSSI]))
    have hb : (runCommon initialCommonState evs).rssi = none := hp.trans rfl
    simp [RSSI, hb]
  · intro evs hnot
    have hp := runCommon_preserve
      (fun c => (c.massStorageID, c.photoCount, c.videoCount, c.pudCount,
        c.crashLogCount, c.rawPhotoCount)) evs initialCommonState
      (fun s e he => by
        obtain ⟨h1, h2, h3, h4, h5, h6⟩ := applyCommonEvent_massContent s e
          (by
            cases e <;> first
              | exact absurd he (hnot _ _ _ _ _ _)
              | simp [storesMassContent])
        simp [h1, h2, h3, h4, h5, h6])
    simp only [Prod.mk.injEq] at hp
    obtain ⟨h1, h2, h3, h4, h5, h6⟩ := hp
    have g1 : (runCommon initialCommonState evs).massStorageID = none :=
      h1.trans rfl
    have g2 : (runCommon initialCommonState evs).photoCount = none :=
      h2.trans rfl
    have g3 : (runCommon initialCommonState evs).videoCount = none :=
      h3.trans rfl
    have g4 : (runCommon initialCommonState evs).pudCount = none :=
      h4.trans rfl
    have g5 : (runCommon initialCommonState evs).crashLogCount = none :=
      h5.trans rfl
    have g6 : (runCommon initialCommonState evs).rawPhotoCount = none :=
      h6.trans rfl
    exact ⟨by simp [MassStorageID, g1], by simp [PhotoCount, g2],
      by simp [VideoCount, g3], by simp [PudCount, g4],
      by simp [CrashLogCount, g5], by simp [RawPhotoCount, g6]⟩
  · intro evs hnot
    have hp := runCommon_preserve
      (fun c => (c.currentRunMassStorageID, c.currentRunPhotoCount,
        c.currentRunVideoCount, c.currentRunRawPhotoCount)) evs
      initialCommonState
      (fun s e he => by
        obtain ⟨h1, h2, h3, h4⟩ := applyCommonEvent_currentRun s e
          (by
            cases e <;> first
              | exact absurd he (hnot _ _ _ _)
              | simp [storesCurrentRun])
        simp [h1, h2, h3, h4])
    simp only [Prod.mk.injEq] at hp
    obtain ⟨h1, h2, h3, h4⟩ := hp
    have g1 : (runCommon initialCommonState evs).currentRunMassStorageID
        = none := h1.trans rfl
    have g2 : (runCommon initialCommonState evs).currentRunPhotoCount
        = none := h2.trans rfl
    have g3 : (runCommon initialCommonState evs).currentRunVideoCount
        = none := h3.trans rfl
    have g4 : (runCommon initialCommonState evs).currentRunRawPhotoCount
        = none := h4.trans rfl
    exact ⟨by simp [CurrentRunMassStorageID, g1],
      by simp [CurrentRunPhotoCount, g2],
      by simp [CurrentRunVideoCount, g3],
      by simp [CurrentRunRawPhotoCount, g4]⟩

/-- Witness for `commonState_reported_semantics`: after a run
containing only a wifi-signal report, `BatteryPercent` is still the
default `(0, false)`; after `batteryStateChanged` stores 42 it is
`(42, true)`. -/
theorem commonState_reported_semantics_witness :
    BatteryPercent (runCommon initialCommonState
        [CommonEvent.wifiSignalChanged 5]) = (0, false) ∧
    BatteryPercent (applyCommonEvent initialCommonState
        (.batteryStateChanged 42)) = (42, true) :=
  ⟨commonState_reported_semantics.1 [CommonEvent.wifiSignalChanged 5]
      (fun p h => by simp at h),
    commonState_reported_semantics.2.1 initialCommonState 42⟩

end Common
